import Mathlib

/-!
Verification development for the expo-speech-transcriber module
(cross-platform speech-to-text bridge).

The definitions below are a shallow embedding of the two native modules:

* `src/ios/ExpoSpeechTranscriberModule.swift` — the iOS module (the file
  contains two revisions of the class; where they differ the later revision,
  which adds the already-running guard and audio-session handling, is
  embedded, and the doc comments cite the lines used).
* `src/unnamed/part_003` — the Android Kotlin module
  (`ExpoSpeechTranscriberModule.kt`).

Platform services (SFSpeechRecognizer construction and availability,
microphone permission, audio-session activation, Android language
enumeration, the recognition engine itself) are modelled as explicit
oracle/environment records; the module code is embedded faithfully on top
of them.  Machine floats are modelled as rationals: every value produced by
the embedded pipeline (an Int16 divided by 32768) is exactly representable
in Float32, so the rational model is exact.
-/

namespace SpeechTranscriber

/-- Events sent through the module event emitter: the two event kinds
`onTranscriptionProgress` (text, isFinal) and `onTranscriptionError`
(message). -/
inductive Event where
  | progress (text : String) (isFinal : Bool)
  | error (message : String)
  deriving DecidableEq, Repr

/-! ### Base64 decoding (model of Swift `Data(base64Encoded:)`, strict mode)

Swift's `Data(base64Encoded:)` with default options rejects any character
outside the base64 alphabet, requires the length to be a multiple of 4 and
allows `=` padding only at the end.  `base64Decode` returns the decoded
bytes (each < 256) or `none` on malformed input. -/

/-- Value of a base64 alphabet character, `none` for anything else. -/
def b64Val (c : Char) : Option Nat :=
  if 'A' ≤ c ∧ c ≤ 'Z' then some (c.toNat - 65)
  else if 'a' ≤ c ∧ c ≤ 'z' then some (c.toNat - 71)
  else if '0' ≤ c ∧ c ≤ '9' then some (c.toNat + 4)
  else if c = '+' then some 62
  else if c = '/' then some 63
  else none

/-- Decode a base64 character list, four characters at a time.  Padding is
only legal in the final quartet. -/
def decodeB64Aux : List Char → Option (List Nat)
  | [] => some []
  | a :: b :: c :: d :: rest =>
    match b64Val a, b64Val b with
    | some va, some vb =>
      if c = '=' then
        if d = '=' ∧ rest = [] then some [va * 4 + vb / 16] else none
      else
        match b64Val c with
        | some vc =>
          if d = '=' then
            if rest = [] then some [va * 4 + vb / 16, (vb % 16) * 16 + vc / 4]
            else none
          else
            match b64Val d with
            | some vd =>
              (decodeB64Aux rest).map
                (fun bs =>
                  (va * 4 + vb / 16) ::
                  ((vb % 16) * 16 + vc / 4) ::
                  ((vc % 4) * 64 + vd) :: bs)
            | none => none
        | none => none
    | _, _ => none
  | _ => none

/-- Model of Swift `Data(base64Encoded: s)`: the byte sequence, or `none`
when `s` is not valid (strictly padded) base64. -/
def base64Decode (s : String) : Option (List Nat) :=
  decodeB64Aux s.data

/-! ### Little-endian Int16 reinterpretation and normalization

Embeds lines 121–128 of `src/ios/ExpoSpeechTranscriberModule.swift`:
`int16Count = data.count / 2` (a trailing odd byte is dropped), each pair
of bytes is read little-endian as a signed Int16, and each sample is
normalized as `Float(int16) / 32768.0`. -/

/-- Two little-endian bytes as a signed 16-bit integer. -/
def toInt16 (lo hi : Nat) : Int :=
  let u := lo + 256 * hi
  if u < 32768 then (u : Int) else (u : Int) - 65536

/-- Reinterpret a byte list as little-endian Int16 samples; a trailing odd
byte is dropped, matching `data.count / 2` in the Swift code. -/
def bytesToInt16LE : List Nat → List Int
  | lo :: hi :: rest => toInt16 lo hi :: bytesToInt16LE rest
  | _ => []

/-- Normalized sample value delivered to the engine: `Float(i) / 32768.0`,
exact in Float32 for every Int16 `i`, hence modelled as a rational. -/
def normalizeSample (i : Int) : ℚ := (i : ℚ) / 32768

/-- The float sample list that `realtimeBufferTranscribeBase64` hands to
`realtimeBufferTranscribe` (lines 115–131): `none` when the base64 input is
rejected. -/
def base64ToFloatSamples (s : String) : Option (List ℚ) :=
  (base64Decode s).map (fun bs => (bytesToInt16LE bs).map normalizeSample)

/-! ### iOS module state and platform environment

The iOS class `ExpoSpeechTranscriberModule` holds its mutable state in
stored properties (`audioEngine`, `recognitionRequest`, `recognitionTask`,
`bufferRecognitionRequest`, `bufferRecognitionTask`, `startedListening`,
`currentLocale`).  Object references are modelled as `Bool` presence flags
(nil / non-nil); `audioEngine.isRunning` is a flag; the buffers appended to
the buffer recognition request are logged so that what "reaches the engine"
is observable. -/

/-- Mutable stored state of the iOS module object. -/
structure IOSState where
  /-- `audioEngine.isRunning` — also the value `isRecording()` returns. -/
  audioEngineRunning : Bool
  /-- `recognitionRequest != nil` (live-microphone session request). -/
  recognitionRequest : Bool
  /-- `recognitionTask != nil` (live-microphone session task). -/
  recognitionTask : Bool
  /-- `bufferRecognitionRequest != nil` (buffer-streaming session request). -/
  bufferRecognitionRequest : Bool
  /-- `bufferRecognitionTask != nil` (buffer-streaming session task). -/
  bufferRecognitionTask : Bool
  /-- `startedListening` flag. -/
  startedListening : Bool
  /-- `currentLocale.identifier` — `Locale(identifier:)` preserves the
  identifier string it was given. -/
  currentLocale : String
  /-- Audio buffers appended to `bufferRecognitionRequest` so far, in
  order; each buffer is its normalized float samples. -/
  bufferAppended : List (List ℚ)
  deriving DecidableEq, Repr

/-- Module state at process start: line 12 / line 603 of the Swift file,
`currentLocale = Locale(identifier: "en_US")`, engine not running, no
requests or tasks. -/
def iosInitialState : IOSState :=
  { audioEngineRunning := false
    recognitionRequest := false
    recognitionTask := false
    bufferRecognitionRequest := false
    bufferRecognitionTask := false
    startedListening := false
    currentLocale := "en_US"
    bufferAppended := [] }

/-- Platform oracle for the iOS module: outcomes of the Apple API calls the
module makes.  A fixed environment models one run of each platform call. -/
structure IOSEnv where
  /-- `SFSpeechRecognizer(locale: Locale(identifier: code)) != nil`. -/
  recognizerForLocale : String → Bool
  /-- `recognizer.isAvailable`. -/
  recognizerAvailable : Bool
  /-- Result of `ensureMicrophonePermission()`. -/
  micPermission : String
  /-- `AVAudioSession.sharedInstance().isInputAvailable`. -/
  inputAvailable : Bool
  /-- `configureAndActivateAudioSession()` succeeds. -/
  audioSessionOk : Bool
  /-- The microphone recording format has positive channel count and
  sample rate. -/
  formatValid : Bool
  /-- `audioEngine.start()` succeeds. -/
  audioEngineStartOk : Bool
  /-- `localizedDescription` of the error thrown by `audioEngine.start()`
  when it fails. -/
  audioEngineStartErr : String
  /-- `AVAudioPCMBuffer(pcmFormat:frameCapacity:)` succeeds. -/
  pcmBufferOk : Bool
  /-- `SFSpeechRecognizer.supportedLocales().map { $0.identifier }`. -/
  supportedLocales : List String

/-! ### iOS language management (Swift lines 571–590 / 1040–1063) -/

/-- `setLanguage(localeCode:)`: constructs `Locale(identifier: localeCode)`
and keeps it as `currentLocale` only when `SFSpeechRecognizer(locale:)` is
constructible; otherwise sends one `onTranscriptionError` event and leaves
the state untouched.  Returns the new state and the events emitted. -/
def iosSetLanguage (env : IOSEnv) (code : String) (st : IOSState) :
    IOSState × List Event :=
  if env.recognizerForLocale code then
    ({ st with currentLocale := code }, [])
  else
    (st, [Event.error
      ("Language \x27" ++ code ++ "\x27 is not available on this device")])

/-- `getCurrentLanguage()`: returns `currentLocale.identifier` verbatim. -/
def iosGetCurrentLanguage (st : IOSState) : String :=
  st.currentLocale

/-- `getAvailableLanguages()`: the identifiers of
`SFSpeechRecognizer.supportedLocales()`. -/
def iosGetAvailableLanguages (env : IOSEnv) : List String :=
  env.supportedLocales

/-- `isLanguageAvailable(localeCode:)`: whether
`SFSpeechRecognizer(locale: Locale(identifier: localeCode))` is
constructible.  Total — never throws. -/
def iosIsLanguageAvailable (env : IOSEnv) (code : String) : Bool :=
  env.recognizerForLocale code

/-- `isRecording()`: `audioEngine.isRunning` (lines 880–882). -/
def iosIsRecording (st : IOSState) : Bool :=
  st.audioEngineRunning

/-! ### iOS realtime microphone session (Swift lines 775–877) -/

/-- `stopListening()` (lines 866–877): stops the engine, removes the tap,
ends and clears the request, cancels and clears the task, resets
`startedListening`.  The buffer-streaming fields are untouched. -/
def iosStopListening (st : IOSState) : IOSState :=
  { st with
    audioEngineRunning := false
    recognitionRequest := false
    recognitionTask := false
    startedListening := false }

/-- `recordRealTimeAndTranscribe()` (lines 775–864, the revision with the
already-running guard): a sequence of guards, each of which sends one error
event and returns, then session setup.  On success the engine is running
and a request and task exist. -/
def iosRecordRealTimeAndTranscribe (env : IOSEnv) (st : IOSState) :
    IOSState × List Event :=
  if st.audioEngineRunning then
    (st, [Event.error "Transcription is already running"])
  else if env.micPermission ≠ "granted" then
    (st, [Event.error "Microphone permission is not granted"])
  else if ¬ env.inputAvailable then
    (st, [Event.error "Microphone is currently unavailable"])
  else if ¬ env.recognizerForLocale st.currentLocale then
    (st, [Event.error
      ("Speech recognizer not available for locale: " ++ st.currentLocale)])
  else if ¬ env.recognizerAvailable then
    (st, [Event.error "Speech recognizer is currently unavailable"])
  else if ¬ env.audioSessionOk then
    (st, [Event.error
      "Unable to activate microphone session. Another call or app may be using audio."])
  else
    let st1 := { st with recognitionRequest := true }
    if ¬ env.formatValid then
      (iosStopListening st1, [Event.error "Invalid microphone audio format"])
    else if ¬ env.audioEngineStartOk then
      (iosStopListening st1, [Event.error env.audioEngineStartErr])
    else
      ({ st1 with
          audioEngineRunning := true
          startedListening := true
          recognitionTask := true }, [])

/-- Body of the `recognitionTask` result handler installed by
`recordRealTimeAndTranscribe` (lines 843–863): an error stops listening and
emits it; a result emits a progress event and, when `isFinal`, calls
`stopListening()`. -/
def iosOnRealtimeResult (err : Option String)
    (result : Option (String × Bool)) (st : IOSState) :
    IOSState × List Event :=
  match err with
  | some e => (iosStopListening st, [Event.error e])
  | none =>
    match result with
    | none => (st, [])
    | some (text, final) =>
      if final then (iosStopListening st, [Event.progress text final])
      else (st, [Event.progress text final])

/-! ### iOS buffer-streaming session (Swift lines 711–772, legacy path;
identical to lines 220–264 of the earlier revision) -/

/-- `realtimeBufferTranscribe(buffer:sampleRate:)` on the legacy
(SFSpeechRecognizer) path: lazily creates the buffer recognition request
and task on first use, then converts the sample list to a PCM buffer and
appends it to the request.  Never touches `audioEngine`. -/
def iosRealtimeBufferTranscribe (env : IOSEnv) (samples : List ℚ)
    (st : IOSState) : IOSState × List Event :=
  if ¬ st.bufferRecognitionRequest ∧
      ¬ env.recognizerForLocale st.currentLocale then
    (st, [Event.error
      ("Speech recognizer not available for locale: " ++ st.currentLocale)])
  else
    let st1 :=
      if st.bufferRecognitionRequest then st
      else { st with
              bufferRecognitionRequest := true
              bufferRecognitionTask := true }
    if env.pcmBufferOk then
      ({ st1 with bufferAppended := st1.bufferAppended ++ [samples] }, [])
    else
      (st1, [Event.error "Unable to create PCM buffer"])

/-- `realtimeBufferTranscribeBase64(base64:sampleRate:)` (lines 115–131):
decodes the base64 input, on failure sends one error event and returns with
nothing created; on success normalizes the samples and forwards them to
`realtimeBufferTranscribe`.  Total — no exception escapes. -/
def iosRealtimeBufferTranscribeBase64 (env : IOSEnv) (base64 : String)
    (st : IOSState) : IOSState × List Event :=
  match base64ToFloatSamples base64 with
  | none => (st, [Event.error "Invalid Base64 string"])
  | some samples => iosRealtimeBufferTranscribe env samples st

/-- `stopBufferTranscription()` (lines 766–772): ends the request, cancels
the task, clears both fields.  Never touches `audioEngine`. -/
def iosStopBufferTranscription (st : IOSState) : IOSState :=
  { st with
    bufferRecognitionRequest := false
    bufferRecognitionTask := false }

/-- Body of the buffer session's recognition handler (lines 726–741): an
error or a result only emits events; unlike the realtime handler it never
calls `stopListening`, and it never touches module state. -/
def iosOnBufferResult (err : Option String)
    (result : Option (String × Bool)) (st : IOSState) :
    IOSState × List Event :=
  match err with
  | some e => (st, [Event.error e])
  | none =>
    match result with
    | none => (st, [])
    | some (text, final) => (st, [Event.progress text final])

/-! ### iOS file transcription (Swift lines 431–505 / 887–972) -/

/-- Outcome of the `SFSpeechURLRecognitionRequest` recognition task for a
file: the callback delivers an error, a nil result, or (with partial
results disabled) the final transcription text. -/
inductive RecOutcome where
  | err (msg : String)
  | nilResult
  | final (text : String)
  deriving DecidableEq, Repr

/-- Platform oracle for `transcribeAudio(url:)`. -/
structure FileOracle where
  /-- `FileManager.default.fileExists(atPath:)`. -/
  fileExists : Bool
  /-- `SFSpeechRecognizer(locale: currentLocale) != nil`. -/
  recognizerConstructs : Bool
  /-- `recognizer.isAvailable`. -/
  recognizerAvailable : Bool
  /-- What the recognition task delivers for this file. -/
  outcome : RecOutcome
  deriving DecidableEq, Repr

/-- `transcribeAudio(url:)` — the SFSpeechRecognizer file path
(lines 431–463 / 887–929).  With `shouldReportPartialResults = false` the
continuation resumes on the final result: empty final text becomes the
sentinel `"No speech detected"`. -/
def transcribeAudio (path : String) (locale : String) (o : FileOracle) :
    String :=
  if ¬ o.fileExists then
    "Error: Audio file not found at " ++ path
  else if ¬ o.recognizerConstructs then
    "Error: Speech recognizer not available for locale: " ++ locale
  else if ¬ o.recognizerAvailable then
    "Error: Speech recognizer not available at this time"
  else
    match o.outcome with
    | RecOutcome.err m => "Error: " ++ m
    | RecOutcome.nilResult => "Error: No transcription available"
    | RecOutcome.final t => if t = "" then "No speech detected" else t

/-- Platform oracle for the SpeechAnalyzer file path (iOS 26+). -/
structure AnalyzerOracle where
  /-- `FileManager.default.fileExists(atPath:)`. -/
  fileExists : Bool
  /-- `isLocaleSupported(locale: currentLocale)`. -/
  localeSupported : Bool
  /-- Message of the error thrown by `ensureModel` /
  `downloadModelIfNeeded`, if any (`none` = success).  The
  locale-unsupported rethrow inside `ensureModel` is unreachable here
  because `localeSupported` was already checked. -/
  modelError : Option String
  /-- Message of the error thrown by `AVAudioFile(forReading:)` or by the
  analyze/finalize calls, if any. -/
  analyzeError : Option String
  /-- Concatenation of the final results' text (`finalText` after the
  results loop). -/
  finalText : String
  deriving DecidableEq, Repr

/-- `transcribeAudioWithAnalyzer(url:)` (lines 469–506 / 933–972), the
iOS 26 body: errors are thrown (`Except.error` carries the NSError code
and message); on success, empty accumulated final text becomes the
sentinel `"No speech detected"`. -/
def transcribeAudioWithAnalyzerCore (path : String) (locale : String)
    (o : AnalyzerOracle) : Except (Nat × String) String :=
  if ¬ o.fileExists then
    Except.error (404, "Audio file not found at " ++ path)
  else if ¬ o.localeSupported then
    Except.error (400, "Locale " ++ locale ++ " not supported")
  else
    match o.modelError with
    | some m => Except.error (400, m)
    | none =>
      match o.analyzeError with
      | some m => Except.error (500, m)
      | none =>
        Except.ok (if o.finalText = "" then "No speech detected"
                   else o.finalText)

/-- The exported `transcribeAudioWithAnalyzer` function (lines 42–56): when
the SpeechAnalyzer code is not compiled in (`SPEECH_ANALYZER_AVAILABLE`
unset) or the OS is below iOS 26, it throws NSError code 501 before doing
anything else; the module state is never touched by this function (it uses
only locals). -/
def transcribeAudioWithAnalyzerEntry (analyzerCompiled os26 : Bool)
    (path : String) (locale : String) (o : AnalyzerOracle) (st : IOSState) :
    (Except (Nat × String) String) × IOSState :=
  if analyzerCompiled && os26 then
    (transcribeAudioWithAnalyzerCore path locale o, st)
  else
    (Except.error (501, "SpeechAnalyzer requires iOS 26.0 or later"), st)

/-! ### Android module (`src/unnamed/part_003`)

The Kotlin module's mutable state is `speechRecognizer` (modelled as an
`Option Nat` holding the identity of the current platform recognizer
instance, with `nextGen` the next fresh identity), `isRecording`, and
`currentLocale : java.util.Locale`. -/

/-- Lowercasing of a string, written charwise so that it evaluates by
kernel reduction (the `String.map`-based core version does not). -/
def toLowerStr (s : String) : String :=
  String.mk (s.data.map Char.toLower)

/-- Uppercasing of a string, written charwise. -/
def toUpperStr (s : String) : String :=
  String.mk (s.data.map Char.toUpper)

/-- Model of `java.util.Locale` as constructed by the module: the
constructors lowercase the language and uppercase the country. -/
structure JLocale where
  language : String
  country : String
  variant : String
  deriving DecidableEq, Repr

/-- `Locale(language)` — language lowercased. -/
def jLocale1 (l : String) : JLocale :=
  ⟨toLowerStr l, "", ""⟩

/-- `Locale(language, country)` — language lowercased, country
uppercased. -/
def jLocale2 (l c : String) : JLocale :=
  ⟨toLowerStr l, toUpperStr c, ""⟩

/-- `Locale(language, country, variant)`. -/
def jLocale3 (l c v : String) : JLocale :=
  ⟨toLowerStr l, toUpperStr c, v⟩

/-- `java.util.Locale.toString()` restricted to language/country/variant
(no script or extensions, which the module never sets): underscore-joined,
with the rules Java uses for empty fields. -/
def JLocale.render (loc : JLocale) : String :=
  loc.language ++
  (if loc.country ≠ "" ∨ (loc.language ≠ "" ∧ loc.variant ≠ "") then
    "_" ++ loc.country else "") ++
  (if loc.variant ≠ "" ∧ (loc.language ≠ "" ∨ loc.country ≠ "") then
    "_" ++ loc.variant else "")

/-- Replacement of every underscore by a hyphen — the Kotlin
`.replace("_", "-")` with a one-character pattern, written charwise. -/
def replaceUnderscore (s : String) : String :=
  String.mk (s.data.map (fun c => if c = '_' then '-' else c))

/-- Replacement of every hyphen by an underscore — the Kotlin
`.replace("-", "_")`. -/
def replaceHyphen (s : String) : String :=
  String.mk (s.data.map (fun c => if c = '-' then '_' else c))

/-- Splitting a character list at every underscore — the semantics of the
Kotlin `.split("_")` with a one-character delimiter (an empty input gives
`[""]`, and trailing delimiters give trailing empty pieces). -/
def splitUnderscoreAux : List Char → List Char → List String
  | [], acc => [String.mk acc.reverse]
  | c :: rest, acc =>
    if c = '_' then String.mk acc.reverse :: splitUnderscoreAux rest []
    else splitUnderscoreAux rest (c :: acc)

/-- The Kotlin `.split("_")` on a string. -/
def splitUnderscore (s : String) : List String :=
  splitUnderscoreAux s.data []

/-- Mutable state of the Android module object. -/
structure AndroidState where
  /-- `isRecording` flag. -/
  isRecording : Bool
  /-- Identity of the current `SpeechRecognizer` instance (`none` = null). -/
  speechRecognizer : Option Nat
  /-- Next fresh recognizer identity (bookkeeping for the model). -/
  nextGen : Nat
  /-- `currentLocale` (defaults to `Locale.getDefault()` at process
  start). -/
  currentLocale : JLocale
  deriving DecidableEq, Repr

/-- Platform oracle for the Android module. -/
structure AndroidEnv where
  /-- `appContext.reactContext != null`. -/
  contextAvailable : Bool
  /-- `SpeechRecognizer.isRecognitionAvailable(context)`. -/
  recognitionAvailable : Bool
  /-- `RECORD_AUDIO` permission granted. -/
  recordAudioPermission : Bool
  /-- `intent.getStringArrayListExtra(EXTRA_SUPPORTED_LANGUAGES)` —
  `none` when the platform cannot enumerate supported languages. -/
  enumeratedLanguages : Option (List String)
  deriving DecidableEq, Repr

/-- The static fallback list `commonLanguages` (part_003 lines 277–281). -/
def androidCommonLanguages : List String :=
  ["en-US", "en-GB", "es-ES", "es-MX", "fr-FR", "de-DE", "it-IT",
   "pt-BR", "pt-PT", "ru-RU", "zh-CN", "zh-TW", "ja-JP", "ko-KR",
   "ar-SA", "hi-IN", "nl-NL", "pl-PL", "tr-TR", "vi-VN"]

/-- `stopListening()` (part_003 lines 138–148): stops and destroys the
recognizer, nulls the field, clears `isRecording`. -/
def androidStopListening (st : AndroidState) : AndroidState :=
  { st with speechRecognizer := none, isRecording := false }

/-- `startListening(promise)` (part_003 lines 99–136).  Note there is no
already-recording guard: on the success path the existing recognizer is
destroyed and a fresh one is created and started.  The returned `Bool` is
the value the promise resolves with. -/
def androidStartListening (env : AndroidEnv) (st : AndroidState) :
    AndroidState × List Event × Bool :=
  if ¬ env.contextAvailable then
    (st, [Event.error "Context is not available"], false)
  else if ¬ env.recognitionAvailable then
    (st, [Event.error "Speech recognition is not available on this device."],
     false)
  else if ¬ env.recordAudioPermission then
    (st, [Event.error "Missing RECORD_AUDIO permission."], false)
  else
    ({ st with
        speechRecognizer := some st.nextGen
        nextGen := st.nextGen + 1
        isRecording := true }, [], true)

/-- `onResults` of the recognition listener (part_003 lines 182–192): a
non-empty match list emits one final progress event; `stopListening()` is
always called. -/
def androidOnResults (resultsList : List String) (st : AndroidState) :
    AndroidState × List Event :=
  match resultsList with
  | [] => (androidStopListening st, [])
  | m :: _ => (androidStopListening st, [Event.progress m true])

/-- `onError` of the recognition listener (part_003 lines 194–198). -/
def androidOnError (errorMessage : String) (st : AndroidState) :
    AndroidState × List Event :=
  (androidStopListening st, [Event.error errorMessage])

/-- `setLanguage(localeCode, promise)` (part_003 lines 246–261): hyphens
are replaced by underscores, the code is split on underscores, and a
`java.util.Locale` is built from the first 1–3 parts.  The assignment is
unconditional — no recognizer is constructed and nothing is validated —
and the promise resolves with success. -/
def androidSetLanguage (code : String) (st : AndroidState) :
    AndroidState × List Event :=
  let parts := splitUnderscore (replaceHyphen code)
  let loc :=
    match parts with
    | [] => jLocale1 ""
    | [l] => jLocale1 l
    | [l, c] => jLocale2 l c
    | l :: c :: v :: _ => jLocale3 l c v
  ({ st with currentLocale := loc }, [])

/-- `getCurrentLanguage(promise)` (part_003 lines 290–292):
`currentLocale.toString().replace("_", "-")`. -/
def androidGetCurrentLanguage (st : AndroidState) : String :=
  replaceUnderscore st.currentLocale.render

/-- `getAvailableLanguages(promise)` (part_003 lines 263–288): the
platform enumeration when present, otherwise the static fallback list;
an absent context resolves with the empty list. -/
def androidGetAvailableLanguages (env : AndroidEnv) : List String :=
  if ¬ env.contextAvailable then []
  else
    match env.enumeratedLanguages with
    | some l => l
    | none => androidCommonLanguages

/-- `isLanguageAvailable(localeCode, promise)` (part_003 lines 294–315):
with an enumeration, membership of the underscore-normalized code; without
one, resolves `true` ("If we can't get the list, assume it's available");
an absent context resolves `false`.  Exceptions are caught — the promise
always resolves. -/
def androidIsLanguageAvailable (env : AndroidEnv) (code : String) : Bool :=
  if ¬ env.contextAvailable then false
  else
    match env.enumeratedLanguages with
    | some l => l.contains (replaceUnderscore code)
    | none => true

/-- `realtimeBufferTranscribe` on Android (part_003 lines 80–82): always
rejects the promise with `ERR_NOT_SUPPORTED`; no state is touched. -/
def androidRealtimeBufferTranscribe (st : AndroidState) :
    AndroidState × Except (String × String) Unit :=
  (st, Except.error ("ERR_NOT_SUPPORTED",
    "Android SpeechRecognizer does not support external audio buffers. Use startActiveListening() to use the internal microphone."))

/-! ### Sequences of buffer-ingestion calls (for the buffer/microphone
separation invariant) -/

/-- One caller-visible buffer-path operation. -/
inductive BufferOp where
  | transcribe (samples : List ℚ)
  | transcribeBase64 (s : String)
  | stop
  deriving Repr

/-- Run one buffer-path operation, keeping the resulting state. -/
def runBufferOp (env : IOSEnv) (st : IOSState) : BufferOp → IOSState
  | BufferOp.transcribe samples => (iosRealtimeBufferTranscribe env samples st).1
  | BufferOp.transcribeBase64 s => (iosRealtimeBufferTranscribeBase64 env s st).1
  | BufferOp.stop => iosStopBufferTranscription st

/-- Run a sequence of buffer-path operations. -/
def runBufferOps (env : IOSEnv) (st : IOSState) : List BufferOp → IOSState
  | [] => st
  | op :: rest => runBufferOps env (runBufferOp env st op) rest

/-- No buffer-path operation changes `audioEngine.isRunning`: none of
`realtimeBufferTranscribe`, `realtimeBufferTranscribeBase64`,
`stopBufferTranscription` touches the audio engine. -/
theorem runBufferOp_preserves_engine (env : IOSEnv) (st : IOSState)
    (op : BufferOp) :
    (runBufferOp env st op).audioEngineRunning = st.audioEngineRunning := by
  have htr : ∀ samples, ((iosRealtimeBufferTranscribe env samples st).1).audioEngineRunning
      = st.audioEngineRunning := by
    intro samples
    simp only [iosRealtimeBufferTranscribe]
    split_ifs <;> rfl
  cases op with
  | transcribe samples => exact htr samples
  | transcribeBase64 s =>
    simp only [runBufferOp, iosRealtimeBufferTranscribeBase64]
    cases base64ToFloatSamples s with
    | none => rfl
    | some samples => exact htr samples
  | stop => rfl

end SpeechTranscriber

/-- Sanity example (not a claim theorem): decoding the base64 of the
little-endian bytes of samples 0, 16384, -32768, 32767. -/
example :
    SpeechTranscriber.base64Decode "AAAAQACA/38=" =
      some [0, 0, 0, 64, 0, 128, 255, 127] := by decide

namespace SpeechTranscriber

/-! ## Claim theorems -/

/-- C1: for every locale code for which the platform cannot construct a
speech recognizer (`SFSpeechRecognizer(locale:)` is nil), `setLanguage`
leaves the whole module state — in particular the active locale returned
by `getCurrentLanguage` — unchanged, and emits exactly one ErrorEvent. -/
theorem setLanguage_fail_closed (env : IOSEnv) (st : IOSState) (code : String)
    (h : env.recognizerForLocale code = false) :
    (iosSetLanguage env code st).1 = st ∧
    iosGetCurrentLanguage (iosSetLanguage env code st).1 =
      iosGetCurrentLanguage st ∧
    (iosSetLanguage env code st).2 =
      [Event.error
        ("Language \x27" ++ code ++ "\x27 is not available on this device")] := by
  simp [iosSetLanguage, h]

/-- Environment in which no locale yields a constructible recognizer. -/
def noRecognizerEnv : IOSEnv :=
  { recognizerForLocale := fun _ => false
    recognizerAvailable := false
    micPermission := "granted"
    inputAvailable := true
    audioSessionOk := true
    formatValid := true
    audioEngineStartOk := true
    audioEngineStartErr := ""
    pcmBufferOk := true
    supportedLocales := [] }

/-- C1 witness: the fail-closed behaviour at the concrete invalid code
`"xx-INVALID"` from the initial state. -/
theorem setLanguage_fail_closed_witness :
    (iosSetLanguage noRecognizerEnv "xx-INVALID" iosInitialState).1 =
      iosInitialState ∧
    iosGetCurrentLanguage
        (iosSetLanguage noRecognizerEnv "xx-INVALID" iosInitialState).1 =
      iosGetCurrentLanguage iosInitialState ∧
    (iosSetLanguage noRecognizerEnv "xx-INVALID" iosInitialState).2 =
      [Event.error
        ("Language \x27" ++ "xx-INVALID" ++
          "\x27 is not available on this device")] :=
  setLanguage_fail_closed noRecognizerEnv iosInitialState "xx-INVALID" rfl

/-- An Android environment in which every start precondition holds and the
platform cannot enumerate supported languages. -/
def androidReadyEnv : AndroidEnv :=
  { contextAvailable := true
    recognitionAvailable := true
    recordAudioPermission := true
    enumeratedLanguages := none }

/-- An Android state with a session currently active: recording, with the
live `SpeechRecognizer` instance identified as 1. -/
def androidActiveState : AndroidState :=
  { isRecording := true
    speechRecognizer := some 1
    nextGen := 2
    currentLocale := jLocale2 "en" "US" }

/-- C2 counterexample: on Android, a second `startListening` made while a
session is active does not fail fast and does not leave the existing
session untouched — the promise resolves with success (`true`) and the
existing recognizer instance is destroyed and replaced by a fresh one. -/
theorem android_second_start_replaces_session :
    (androidStartListening androidReadyEnv androidActiveState).2.2 = true ∧
    (androidStartListening androidReadyEnv androidActiveState).1.speechRecognizer ≠
      androidActiveState.speechRecognizer := by decide

/-- C2 (amended): on iOS, at most one realtime session exists (the module
holds a single request/task pair), and a second
`recordRealTimeAndTranscribe` call while the audio engine is running fails
fast — the state is returned unchanged and exactly one ErrorEvent is
emitted; on Android the second start instead tears the running session
down and starts a fresh one (see the counterexample). -/
theorem ios_second_start_fail_fast (env : IOSEnv) (st : IOSState)
    (h : st.audioEngineRunning = true) :
    iosRecordRealTimeAndTranscribe env st =
      (st, [Event.error "Transcription is already running"]) := by
  simp [iosRecordRealTimeAndTranscribe, h]

/-- An iOS module state with the realtime microphone session running. -/
def iosActiveState : IOSState :=
  { iosInitialState with
      audioEngineRunning := true
      recognitionRequest := true
      recognitionTask := true
      startedListening := true }

/-- C2 witness: the fail-fast rejection at a concrete active state. -/
theorem ios_second_start_fail_fast_witness :
    iosActiveState.audioEngineRunning = true ∧
    iosRecordRealTimeAndTranscribe noRecognizerEnv iosActiveState =
      (iosActiveState, [Event.error "Transcription is already running"]) :=
  ⟨rfl, ios_second_start_fail_fast noRecognizerEnv iosActiveState rfl⟩

/-- C3: in realtime microphone mode, a final recognition result closes the
session without an explicit stop from the caller: the iOS legacy handler
emits the final progress event and calls `stopListening`, after which
`isRecording()` is false, and the Android `onResults` handler likewise
calls `stopListening`, after which `isRecording` is false. -/
theorem final_result_auto_closes (st : IOSState) (text : String)
    (ast : AndroidState) (resultsList : List String) :
    iosOnRealtimeResult none (some (text, true)) st =
      (iosStopListening st, [Event.progress text true]) ∧
    iosIsRecording (iosOnRealtimeResult none (some (text, true)) st).1 =
      false ∧
    (androidOnResults resultsList ast).1.isRecording = false := by
  refine ⟨rfl, rfl, ?_⟩
  cases resultsList <;> rfl

/-- C4: `realtimeBufferTranscribeBase64` decodes little-endian 16-bit PCM
and normalizes by dividing by 32768 before the samples reach the engine:
any base64 input decoding to the bytes of the samples
0, 16384, -32768, 32767 makes the engine receive exactly the floats
0, 1/2, -1, 32767/32768 (each exactly representable in Float32, so the
rational model is exact). -/
theorem base64_pcm_normalization (env : IOSEnv) (st : IOSState) (s : String)
    (hdec : base64Decode s = some [0, 0, 0, 64, 0, 128, 255, 127])
    (hreq : st.bufferRecognitionRequest = true)
    (hpcm : env.pcmBufferOk = true) :
    (iosRealtimeBufferTranscribeBase64 env s st).1.bufferAppended =
      st.bufferAppended ++ [[(0 : ℚ), 1 / 2, -1, 32767 / 32768]] := by
  have hsamp : base64ToFloatSamples s =
      some [(0 : ℚ), 1 / 2, -1, 32767 / 32768] := by
    rw [base64ToFloatSamples, hdec]
    simp [bytesToInt16LE, toInt16, normalizeSample]
    norm_num
  rw [iosRealtimeBufferTranscribeBase64, hsamp]
  simp [iosRealtimeBufferTranscribe, hreq, hpcm]

/-- Environment in which every locale yields a constructible recognizer
and every platform call succeeds. -/
def allOkEnv : IOSEnv :=
  { recognizerForLocale := fun _ => true
    recognizerAvailable := true
    micPermission := "granted"
    inputAvailable := true
    audioSessionOk := true
    formatValid := true
    audioEngineStartOk := true
    audioEngineStartErr := ""
    pcmBufferOk := true
    supportedLocales := ["en-US"] }

/-- An iOS state with a buffer-streaming session already set up. -/
def iosBufferSessionState : IOSState :=
  { iosInitialState with
      bufferRecognitionRequest := true
      bufferRecognitionTask := true }

/-- C4 witness: the concrete base64 string `"AAAAQACA/38="` (the
little-endian bytes of 0, 16384, -32768, 32767) delivers exactly
0, 1/2, -1, 32767/32768 to the engine. -/
theorem base64_pcm_normalization_witness :
    base64Decode "AAAAQACA/38=" = some [0, 0, 0, 64, 0, 128, 255, 127] ∧
    (iosRealtimeBufferTranscribeBase64 allOkEnv "AAAAQACA/38="
        iosBufferSessionState).1.bufferAppended =
      iosBufferSessionState.bufferAppended ++
        [[(0 : ℚ), 1 / 2, -1, 32767 / 32768]] :=
  ⟨by decide,
   base64_pcm_normalization allOkEnv iosBufferSessionState "AAAAQACA/38="
     (by decide) rfl rfl⟩

/-- C5: whenever the engine detects no speech in a file (the final
transcription text is empty), both file-transcription paths return the
literal sentinel `"No speech detected"`, never the empty string. -/
theorem empty_result_sentinel (path locale : String) (o : FileOracle)
    (ao : AnalyzerOracle)
    (h1 : o.fileExists = true) (h2 : o.recognizerConstructs = true)
    (h3 : o.recognizerAvailable = true)
    (h4 : o.outcome = RecOutcome.final "")
    (h5 : ao.fileExists = true) (h6 : ao.localeSupported = true)
    (h7 : ao.modelError = none) (h8 : ao.analyzeError = none)
    (h9 : ao.finalText = "") :
    transcribeAudio path locale o = "No speech detected" ∧
    transcribeAudioWithAnalyzerCore path locale ao =
      Except.ok "No speech detected" ∧
    ("No speech detected" : String) ≠ "" := by
  refine ⟨?_, ?_, by decide⟩
  · simp [transcribeAudio, h1, h2, h3, h4]
  · simp [transcribeAudioWithAnalyzerCore, h5, h6, h7, h8, h9]

/-- A file-recognition run that finds the file and the recognizer but
detects no speech. -/
def silentFileOracle : FileOracle :=
  { fileExists := true
    recognizerConstructs := true
    recognizerAvailable := true
    outcome := RecOutcome.final "" }

/-- An analyzer run that finds the file, the locale and the model but
detects no speech. -/
def silentAnalyzerOracle : AnalyzerOracle :=
  { fileExists := true
    localeSupported := true
    modelError := none
    analyzeError := none
    finalText := "" }

/-- C5 witness: the sentinel at a concrete silent file. -/
theorem empty_result_sentinel_witness :
    transcribeAudio "a.wav" "en-US" silentFileOracle = "No speech detected" ∧
    transcribeAudioWithAnalyzerCore "a.wav" "en-US" silentAnalyzerOracle =
      Except.ok "No speech detected" ∧
    ("No speech detected" : String) ≠ "" :=
  empty_result_sentinel "a.wav" "en-US" silentFileOracle silentAnalyzerOracle
    rfl rfl rfl rfl rfl rfl rfl rfl rfl

/-- C6: explicitly requesting an unsupported operation fails immediately
with a capability error and no state change: `transcribeAudioWithAnalyzer`
below iOS 26 (or without the SpeechAnalyzer build flag) throws NSError
code 501 with the module state untouched, before any oracle/resource is
consulted, and Android buffer transcription always rejects the promise
with `ERR_NOT_SUPPORTED` and an untouched state. -/
theorem capability_rejection (analyzerCompiled os26 : Bool)
    (path locale : String) (o : AnalyzerOracle) (st : IOSState)
    (ast : AndroidState)
    (h : (analyzerCompiled && os26) = false) :
    transcribeAudioWithAnalyzerEntry analyzerCompiled os26 path locale o st =
      (Except.error (501, "SpeechAnalyzer requires iOS 26.0 or later"), st) ∧
    androidRealtimeBufferTranscribe ast =
      (ast, Except.error ("ERR_NOT_SUPPORTED",
        "Android SpeechRecognizer does not support external audio buffers. Use startActiveListening() to use the internal microphone.")) := by
  refine ⟨?_, rfl⟩
  simp [transcribeAudioWithAnalyzerEntry, h]

/-- C6 witness: the rejection at a concrete pre-iOS-26 configuration
(analyzer code compiled in but the OS below 26). -/
theorem capability_rejection_witness :
    ((true : Bool) && false) = false ∧
    transcribeAudioWithAnalyzerEntry true false "a.wav" "en-US"
        silentAnalyzerOracle iosInitialState =
      (Except.error (501, "SpeechAnalyzer requires iOS 26.0 or later"),
       iosInitialState) ∧
    androidRealtimeBufferTranscribe androidActiveState =
      (androidActiveState, Except.error ("ERR_NOT_SUPPORTED",
        "Android SpeechRecognizer does not support external audio buffers. Use startActiveListening() to use the internal microphone.")) :=
  ⟨rfl,
   capability_rejection true false "a.wav" "en-US" silentAnalyzerOracle
     iosInitialState androidActiveState rfl⟩

/-- C7 counterexample: when the Android platform cannot enumerate
languages, `isLanguageAvailable "xx-XX"` answers `true`, but membership of
the (already hyphenated) code in the list `getAvailableLanguages` returns
— the static fallback list — is `false`: the two functions do not use the
same source in the fallback case. -/
theorem isLanguageAvailable_diverges_from_fallback :
    androidIsLanguageAvailable androidReadyEnv "xx-XX" = true ∧
    replaceUnderscore "xx-XX" = "xx-XX" ∧
    (androidGetAvailableLanguages androidReadyEnv).contains "xx-XX" =
      false := by decide

/-- C7 (amended): `isLanguageAvailable` never throws (it is a total
function of the environment), and whenever the platform does enumerate
supported languages it returns exactly membership of the hyphen-normalized
code in the same list `getAvailableLanguages` returns; but when the
platform cannot enumerate, it returns `true` for every code, while
`getAvailableLanguages` returns the static fallback list. -/
theorem isLanguageAvailable_amended (env : AndroidEnv) (code : String) :
    (∀ l, env.enumeratedLanguages = some l →
      androidIsLanguageAvailable env code =
        (androidGetAvailableLanguages env).contains
          (replaceUnderscore code)) ∧
    (env.enumeratedLanguages = none → env.contextAvailable = true →
      androidIsLanguageAvailable env code = true) := by
  constructor
  · intro l hl
    by_cases hc : env.contextAvailable
    · simp [androidIsLanguageAvailable, androidGetAvailableLanguages, hl, hc]
    · simp only [Bool.not_eq_true] at hc
      simp [androidIsLanguageAvailable, androidGetAvailableLanguages, hc]
  · intro hn hc
    simp [androidIsLanguageAvailable, hn, hc]

/-- An Android environment whose platform enumerates exactly one
language. -/
def androidEnumEnv : AndroidEnv :=
  { androidReadyEnv with enumeratedLanguages := some ["en-US"] }

/-- C7 witness: both regimes of the amended claim at concrete inputs —
with an enumeration, `isLanguageAvailable "en_US"` equals membership of
the normalized code in `getAvailableLanguages`; without one, it is
`true`. -/
theorem isLanguageAvailable_amended_witness :
    androidIsLanguageAvailable androidEnumEnv "en_US" =
      (androidGetAvailableLanguages androidEnumEnv).contains
        (replaceUnderscore "en_US") ∧
    androidIsLanguageAvailable androidReadyEnv "xq-QQ" = true :=
  ⟨(isLanguageAvailable_amended androidEnumEnv "en_US").1 ["en-US"] rfl,
   (isLanguageAvailable_amended androidReadyEnv "xq-QQ").2 rfl rfl⟩

/-- C8 counterexample: on iOS the process-start default locale is
`Locale(identifier: "en_US")` and `getCurrentLanguage` echoes the
identifier verbatim, so the very first `getCurrentLanguage` answers the
underscore-separated `"en_US"`, not a hyphen-separated form. -/
theorem ios_default_locale_not_hyphenated :
    iosGetCurrentLanguage iosInitialState = "en_US" ∧
    '_' ∈ (iosGetCurrentLanguage iosInitialState).data ∧
    iosGetCurrentLanguage iosInitialState ≠ "en-US" := by decide

/-- No output of `replaceUnderscore` contains an underscore. -/
theorem replaceUnderscore_no_underscore (s : String) :
    '_' ∉ (replaceUnderscore s).data := by
  intro h
  have h2 : '_' ∈ s.data.map (fun c => if c = '_' then '-' else c) := h
  rcases List.mem_map.mp h2 with ⟨c, _, hc⟩
  by_cases hcu : c = '_' <;> simp [hcu] at hc

/-- C8 (amended): on Android, locale handling does normalize to hyphenated
form — `setLanguage` accepts hyphen- and underscore-separated codes and
every value `getCurrentLanguage` echoes (including the process-start
default) is underscore-free, with `"en_US"` and `"en-US"` both echoed as
`"en-US"`; on iOS, however, `setLanguage` stores and `getCurrentLanguage`
echoes the identifier verbatim with no separator normalization, and the
process-start default is echoed as `"en_US"` (see the counterexample). -/
theorem locale_hyphen_normalization_amended (ast : AndroidState)
    (env : IOSEnv) (st : IOSState) (code : String)
    (h : env.recognizerForLocale code = true) :
    '_' ∉ (androidGetCurrentLanguage ast).data ∧
    androidGetCurrentLanguage (androidSetLanguage "en_US" ast).1 = "en-US" ∧
    androidGetCurrentLanguage (androidSetLanguage "en-US" ast).1 = "en-US" ∧
    iosGetCurrentLanguage (iosSetLanguage env code st).1 = code := by
  refine ⟨replaceUnderscore_no_underscore _, rfl, rfl, ?_⟩
  simp [iosSetLanguage, iosGetCurrentLanguage, h]

/-- An Android state as at process start on a `de_DE`-defaulted device. -/
def androidInitialState : AndroidState :=
  { isRecording := false
    speechRecognizer := none
    nextGen := 0
    currentLocale := jLocale2 "de" "DE" }

/-- C8 witness: the amended claim at concrete inputs — the Android default
echo is underscore-free, both separators echo as `"en-US"`, and iOS echoes
the accepted code `"en_GB"` verbatim. -/
theorem locale_hyphen_normalization_amended_witness :
    '_' ∉ (androidGetCurrentLanguage androidInitialState).data ∧
    androidGetCurrentLanguage
        (androidSetLanguage "en_US" androidInitialState).1 = "en-US" ∧
    androidGetCurrentLanguage
        (androidSetLanguage "en-US" androidInitialState).1 = "en-US" ∧
    iosGetCurrentLanguage
        (iosSetLanguage allOkEnv "en_GB" iosInitialState).1 = "en_GB" :=
  locale_hyphen_normalization_amended androidInitialState allOkEnv
    iosInitialState "en_GB" rfl

/-- C9: for every input string that is not valid base64,
`realtimeBufferTranscribeBase64` emits exactly one ErrorEvent with message
`"Invalid Base64 string"` and returns with the module state unchanged — in
particular no recognition session or buffer state is created, and (the
embedding being a total function) no exception escapes. -/
theorem invalid_base64_rejected (env : IOSEnv) (st : IOSState) (s : String)
    (h : base64Decode s = none) :
    iosRealtimeBufferTranscribeBase64 env s st =
      (st, [Event.error "Invalid Base64 string"]) := by
  simp [iosRealtimeBufferTranscribeBase64, base64ToFloatSamples, h]

/-- C9 witness: the rejection at the concrete malformed input `"!!!"`. -/
theorem invalid_base64_rejected_witness :
    base64Decode "!!!" = none ∧
    iosRealtimeBufferTranscribeBase64 allOkEnv "!!!" iosInitialState =
      (iosInitialState, [Event.error "Invalid Base64 string"]) :=
  ⟨by decide,
   invalid_base64_rejected allOkEnv iosInitialState "!!!" (by decide)⟩

/-- C10: on iOS the buffer-ingestion path never affects `isRecording()`:
for every sequence of `realtimeBufferTranscribe`,
`realtimeBufferTranscribeBase64` and `stopBufferTranscription` calls made
with no microphone session running, `isRecording()` remains false, because
it reports only `audioEngine.isRunning` and the buffer path never touches
the audio engine. -/
theorem buffer_ops_never_recording (env : IOSEnv) (ops : List BufferOp)
    (st : IOSState) (h : st.audioEngineRunning = false) :
    iosIsRecording (runBufferOps env st ops) = false := by
  induction ops generalizing st with
  | nil => exact h
  | cons op rest ih =>
    exact ih (runBufferOp env st op)
      ((runBufferOp_preserves_engine env st op).trans h)

/-- C10 witness: a concrete call sequence — a float buffer, a base64
buffer, a stop, and another float buffer — starting from the initial
state, with `isRecording()` still false at the end. -/
theorem buffer_ops_never_recording_witness :
    iosInitialState.audioEngineRunning = false ∧
    iosIsRecording (runBufferOps allOkEnv iosInitialState
      [BufferOp.transcribe [1 / 2, 0],
       BufferOp.transcribeBase64 "AAAAQACA/38=",
       BufferOp.stop,
       BufferOp.transcribe [1 / 4]]) = false :=
  ⟨rfl,
   buffer_ops_never_recording allOkEnv
     [BufferOp.transcribe [1 / 2, 0],
      BufferOp.transcribeBase64 "AAAAQACA/38=",
      BufferOp.stop,
      BufferOp.transcribe [1 / 4]] iosInitialState rfl⟩

end SpeechTranscriber
